import Mathlib

/-!
Verification development for the compact-mobile-mode controller of this
repository (the `CompactMobileMode` class, its module-level factory
`initCompactMobileMode`, and the operations the UI layer calls).

The controller is shallowly embedded: the fields of the class become a
structure, the tracked portion of the document root (the two marker classes
`compact-mode` and `compact-mode-smaller` and the three custom CSS
properties) becomes a `DocumentRoot` record, and each method becomes a pure
state-transforming function.  Dispatched `compactModeChange` events are
accumulated in a log so that claims about event payloads can be stated.
Scale factors are modelled as rationals (`0.857`, `0.8`); the source only
stores and compares these literals, never computes with them, so the
embedding is exact.
-/

/-- Configuration record, mirroring the `CompactModeConfig` interface. -/
structure CompactModeConfig where
  autoEnable : Bool
  breakpoint : ℕ
  scaleFactor : ℚ
  touchMinSize : ℕ
  enablePassiveListeners : Bool
  deriving DecidableEq, Repr

/-- The default configuration object built in the class field initializer;
`scaleFactor` is the source literal `0.857`. -/
def defaultConfig : CompactModeConfig :=
  { autoEnable := true
    breakpoint := 480
    scaleFactor := mkRat 857 1000
    touchMinSize := 40
    enablePassiveListeners := true }

/-- The slice of the document root the controller mutates: the two marker
classes and the three custom CSS properties (`--compact-scale-factor`,
`--compact-font-base`, `--compact-touch-min-size`).  `none` models an unset
property. -/
structure DocumentRoot where
  compactClass : Bool
  smallerClass : Bool
  scaleFactorProp : Option ℚ
  fontBaseProp : Option ℕ
  touchMinSizeProp : Option ℕ
  deriving DecidableEq, Repr

/-- A document root with no marker class and no custom property set. -/
def DocumentRoot.baseline : DocumentRoot :=
  { compactClass := false
    smallerClass := false
    scaleFactorProp := none
    fontBaseProp := none
    touchMinSizeProp := none }

/-- The action tag of a dispatched `compactModeChange` event. -/
inductive EventAction where
  | enabled
  | disabled
  deriving DecidableEq, Repr

/-- Payload of a `compactModeChange` custom event, as built by
`dispatchCompactModeEvent`. -/
structure CompactModeEvent where
  action : EventAction
  isCompact : Bool
  scaleFactor : ℚ
  deriving DecidableEq, Repr

/-- The argument of `setCompactModeLevel`. -/
inductive Level where
  | normal
  | smaller
  deriving DecidableEq, Repr

/-- Controller state: the private fields of the `CompactMobileMode` class
together with the tracked document root and the log of dispatched
`compactModeChange` events (oldest first). -/
structure CompactMobileMode where
  config : CompactModeConfig
  isCompactMode : Bool
  isManualMode : Bool
  root : DocumentRoot
  events : List CompactModeEvent
  deriving DecidableEq, Repr

/-- JavaScript `x || d` for an optional number `x`: `undefined` and `0` are
falsy and select the default. -/
def jsOrQ (x : Option ℚ) (d : ℚ) : ℚ :=
  match x with
  | none => d
  | some v => if v = 0 then d else v

/-- JavaScript `x || d` for an optional natural, same falsy rule. -/
def jsOrN (x : Option ℕ) (d : ℕ) : ℕ :=
  match x with
  | none => d
  | some v => if v = 0 then d else v

/-- `updateCSSProperties(scaleFactor?, fontSize?)`: sets the three custom
properties with `scale = scaleFactor || config.scaleFactor` and
`font = fontSize || 12`. -/
def CompactMobileMode.updateCSSProperties (s : CompactMobileMode)
    (scaleFactor : Option ℚ) (fontSize : Option ℕ) : CompactMobileMode :=
  let scale := jsOrQ scaleFactor s.config.scaleFactor
  let font := jsOrN fontSize 12
  { s with root := { s.root with
      scaleFactorProp := some scale
      fontBaseProp := some font
      touchMinSizeProp := some s.config.touchMinSize } }

/-- `resetCSSProperties()`: removes the three custom properties. -/
def CompactMobileMode.resetCSSProperties (s : CompactMobileMode) :
    CompactMobileMode :=
  { s with root := { s.root with
      scaleFactorProp := none
      fontBaseProp := none
      touchMinSizeProp := none } }

/-- `dispatchCompactModeEvent(action)`: appends a `compactModeChange` event
whose payload carries the current compact flag and `config.scaleFactor`. -/
def CompactMobileMode.dispatchCompactModeEvent (s : CompactMobileMode)
    (action : EventAction) : CompactMobileMode :=
  { s with events :=
      s.events ++ [⟨action, s.isCompactMode, s.config.scaleFactor⟩] }

/-- `enableCompactMode()`: returns immediately when already compact,
otherwise sets the flag, adds the `compact-mode` class, publishes the
custom properties and dispatches an `enabled` event.  (The call to
`addTouchActionToElements` only touches per-element inline styles outside
the tracked root state.) -/
def CompactMobileMode.enableCompactMode (s : CompactMobileMode) :
    CompactMobileMode :=
  if s.isCompactMode = true then s
  else
    let s1 := { s with isCompactMode := true
                       root := { s.root with compactClass := true } }
    let s2 := s1.updateCSSProperties none none
    s2.dispatchCompactModeEvent EventAction.enabled

/-- `disableCompactMode()`: returns immediately when not compact, otherwise
clears the flag, removes both `compact-mode` and `compact-mode-smaller`
classes, removes the custom properties and dispatches a `disabled`
event. -/
def CompactMobileMode.disableCompactMode (s : CompactMobileMode) :
    CompactMobileMode :=
  if s.isCompactMode = false then s
  else
    let s1 := { s with isCompactMode := false
                       root := { s.root with compactClass := false
                                             smallerClass := false } }
    let s2 := s1.resetCSSProperties
    s2.dispatchCompactModeEvent EventAction.disabled

/-- `toggleCompactMode()`: sets `isManualMode = true`, then disables when
compact and enables otherwise. -/
def CompactMobileMode.toggleCompactMode (s : CompactMobileMode) :
    CompactMobileMode :=
  let s1 := { s with isManualMode := true }
  if s1.isCompactMode = true then s1.disableCompactMode
  else s1.enableCompactMode

/-- `setCompactModeLevel(level)`: sets `isManualMode = true`; for
`"smaller"` adds the `compact-mode-smaller` class and publishes scale `0.8`
with font `11`, for `"normal"` removes that class and republishes the
defaults. -/
def CompactMobileMode.setCompactModeLevel (s : CompactMobileMode)
    (level : Level) : CompactMobileMode :=
  let s1 := { s with isManualMode := true }
  match level with
  | Level.smaller =>
      ({ s1 with root := { s1.root with smallerClass := true } }
        ).updateCSSProperties (some (mkRat 8 10)) (some 11)
  | Level.normal =>
      ({ s1 with root := { s1.root with smallerClass := false } }
        ).updateCSSProperties none none

/-- `autoDetectAndApply()`: returns unless `config.autoEnable` holds and
the controller is not in manual mode; then compares `window.innerWidth`
(the `width` argument here) with the breakpoint and enables or disables
accordingly. -/
def CompactMobileMode.autoDetectAndApply (s : CompactMobileMode)
    (width : ℕ) : CompactMobileMode :=
  if s.config.autoEnable = false ∨ s.isManualMode = true then s
  else if decide (width ≤ s.config.breakpoint) = true ∧
      s.isCompactMode = false then s.enableCompactMode
  else if decide (width ≤ s.config.breakpoint) = false ∧
      s.isCompactMode = true then s.disableCompactMode
  else s

/-- `handleMediaQueryChange(event)`: re-evaluates only when not in manual
mode; the media query fires on width changes, so the current width is the
argument. -/
def CompactMobileMode.handleMediaQueryChange (s : CompactMobileMode)
    (width : ℕ) : CompactMobileMode :=
  if s.isManualMode = false then s.autoDetectAndApply width else s

/-- `destroy()`: detaches the media-query listener and the resize observer
(listener registration is not part of the tracked state) and calls
`disableCompactMode`. -/
def CompactMobileMode.destroy (s : CompactMobileMode) : CompactMobileMode :=
  s.disableCompactMode

/-- Return type of `getStatus()`. -/
structure Status where
  isCompact : Bool
  isManual : Bool
  scaleFactor : ℚ
  deriving DecidableEq, Repr

/-- `getStatus()`: reports the two flags and `config.scaleFactor`. -/
def CompactMobileMode.getStatus (s : CompactMobileMode) : Status :=
  ⟨s.isCompactMode, s.isManualMode, s.config.scaleFactor⟩

/-- The constructor: merges the caller's overrides into the defaults (here
the effective merged configuration is passed directly), starts with both
flags false and a baseline document root, and runs `init`, whose only
state-relevant step is the initial `autoDetectAndApply` at the current
window width. -/
def CompactMobileMode.new (config : CompactModeConfig) (width : ℕ) :
    CompactMobileMode :=
  CompactMobileMode.autoDetectAndApply
    { config := config
      isCompactMode := false
      isManualMode := false
      root := DocumentRoot.baseline
      events := [] }
    width

/-- One public operation on the controller, for stating reachability. -/
inductive Op where
  | enable
  | disable
  | toggle
  | setLevel (level : Level)
  | autoDetect (width : ℕ)
  | mediaQuery (width : ℕ)
  | destroyOp
  deriving DecidableEq, Repr

/-- Apply one public operation. -/
def applyOp (s : CompactMobileMode) : Op → CompactMobileMode
  | Op.enable => s.enableCompactMode
  | Op.disable => s.disableCompactMode
  | Op.toggle => s.toggleCompactMode
  | Op.setLevel level => s.setCompactModeLevel level
  | Op.autoDetect width => s.autoDetectAndApply width
  | Op.mediaQuery width => s.handleMediaQueryChange width
  | Op.destroyOp => s.destroy

/-- Apply a sequence of public operations, oldest first. -/
def run (s : CompactMobileMode) : List Op → CompactMobileMode
  | [] => s
  | op :: ops => run (applyOp s op) ops

/-- `initCompactMobileMode(config?)` together with the module-level
`compactMobileMode` global: outside a browser (`browserEnv = false`) it
throws before touching the global; otherwise it creates the instance on
first call and returns the existing one afterwards.  The result pairs the
new value of the global with the returned instance or thrown error. -/
def initCompactMobileMode (browserEnv : Bool) (width : ℕ)
    (config : CompactModeConfig) (globalInstance : Option CompactMobileMode) :
    Option CompactMobileMode × Except String CompactMobileMode :=
  if browserEnv = false then
    (globalInstance,
      Except.error "CompactMobileMode can only be initialized in browser environment")
  else
    match globalInstance with
    | some inst => (some inst, Except.ok inst)
    | none =>
        let inst := CompactMobileMode.new config width
        (some inst, Except.ok inst)

/-- A compact controller: fresh instance created at width 375 with the
default configuration (below the 480 breakpoint, so auto-detection enables
compact mode). -/
def exampleCompact : CompactMobileMode :=
  CompactMobileMode.new defaultConfig 375

/-- A non-compact controller: fresh instance created at width 800. -/
def exampleWide : CompactMobileMode :=
  CompactMobileMode.new defaultConfig 800

/-- A manual-mode controller: the wide instance after one toggle. -/
def exampleManual : CompactMobileMode :=
  exampleWide.toggleCompactMode

/-- The compact flag agrees with the presence of the `compact-mode` marker
class on the document root. -/
def ClassConsistent (s : CompactMobileMode) : Prop :=
  s.isCompactMode = s.root.compactClass

/-- The configuration and every dispatched event payload report the scale
factor `c`. -/
def ReportsScale (c : ℚ) (s : CompactMobileMode) : Prop :=
  s.config.scaleFactor = c ∧ ∀ e ∈ s.events, e.scaleFactor = c

namespace CompactMobileMode

theorem enable_isCompactMode (s : CompactMobileMode) :
    s.enableCompactMode.isCompactMode = true := by
  by_cases h : s.isCompactMode = true
  · simp [enableCompactMode, h]
  · simp [enableCompactMode, h, updateCSSProperties, dispatchCompactModeEvent]

theorem enable_isManualMode (s : CompactMobileMode) :
    s.enableCompactMode.isManualMode = s.isManualMode := by
  by_cases h : s.isCompactMode = true
  · simp [enableCompactMode, h]
  · simp [enableCompactMode, h, updateCSSProperties, dispatchCompactModeEvent]

theorem enable_config (s : CompactMobileMode) :
    s.enableCompactMode.config = s.config := by
  by_cases h : s.isCompactMode = true
  · simp [enableCompactMode, h]
  · simp [enableCompactMode, h, updateCSSProperties, dispatchCompactModeEvent]

theorem enable_compactClass (s : CompactMobileMode) (h : s.isCompactMode = false) :
    s.enableCompactMode.root.compactClass = true := by
  simp [enableCompactMode, h, updateCSSProperties, dispatchCompactModeEvent]

theorem enable_of_compact (s : CompactMobileMode) (h : s.isCompactMode = true) :
    s.enableCompactMode = s := by
  simp [enableCompactMode, h]

theorem disable_isCompactMode (s : CompactMobileMode) :
    s.disableCompactMode.isCompactMode = false := by
  by_cases h : s.isCompactMode = false
  · simp [disableCompactMode, h]
  · simp [disableCompactMode, h, resetCSSProperties, dispatchCompactModeEvent]

theorem disable_isManualMode (s : CompactMobileMode) :
    s.disableCompactMode.isManualMode = s.isManualMode := by
  by_cases h : s.isCompactMode = false
  · simp [disableCompactMode, h]
  · simp [disableCompactMode, h, resetCSSProperties, dispatchCompactModeEvent]

theorem disable_config (s : CompactMobileMode) :
    s.disableCompactMode.config = s.config := by
  by_cases h : s.isCompactMode = false
  · simp [disableCompactMode, h]
  · simp [disableCompactMode, h, resetCSSProperties, dispatchCompactModeEvent]

theorem disable_root (s : CompactMobileMode) (h : s.isCompactMode = true) :
    s.disableCompactMode.root =
      { s.root with compactClass := false, smallerClass := false,
                    scaleFactorProp := none, fontBaseProp := none,
                    touchMinSizeProp := none } := by
  simp [disableCompactMode, h, resetCSSProperties, dispatchCompactModeEvent]

theorem disable_of_not_compact (s : CompactMobileMode)
    (h : s.isCompactMode = false) : s.disableCompactMode = s := by
  simp [disableCompactMode, h]

theorem toggle_isCompactMode (s : CompactMobileMode) :
    s.toggleCompactMode.isCompactMode = !s.isCompactMode := by
  by_cases h : s.isCompactMode = true
  · simp [toggleCompactMode, h, disable_isCompactMode]
  · simp only [Bool.not_eq_true] at h
    simp [toggleCompactMode, h, enable_isCompactMode]

theorem toggle_isManualMode (s : CompactMobileMode) :
    s.toggleCompactMode.isManualMode = true := by
  by_cases h : s.isCompactMode = true
  · simp [toggleCompactMode, h, disable_isManualMode]
  · simp only [Bool.not_eq_true] at h
    simp [toggleCompactMode, h, enable_isManualMode]

theorem toggle_config (s : CompactMobileMode) :
    s.toggleCompactMode.config = s.config := by
  by_cases h : s.isCompactMode = true
  · simp [toggleCompactMode, h, disable_config]
  · simp only [Bool.not_eq_true] at h
    simp [toggleCompactMode, h, enable_config]

theorem setLevel_isCompactMode (s : CompactMobileMode) (level : Level) :
    (s.setCompactModeLevel level).isCompactMode = s.isCompactMode := by
  cases level <;> simp [setCompactModeLevel, updateCSSProperties]

theorem setLevel_isManualMode (s : CompactMobileMode) (level : Level) :
    (s.setCompactModeLevel level).isManualMode = true := by
  cases level <;> simp [setCompactModeLevel, updateCSSProperties]

theorem setLevel_config (s : CompactMobileMode) (level : Level) :
    (s.setCompactModeLevel level).config = s.config := by
  cases level <;> simp [setCompactModeLevel, updateCSSProperties]

theorem setLevel_compactClass (s : CompactMobileMode) (level : Level) :
    (s.setCompactModeLevel level).root.compactClass = s.root.compactClass := by
  cases level <;> simp [setCompactModeLevel, updateCSSProperties]

theorem auto_of_manual (s : CompactMobileMode) (width : ℕ)
    (h : s.isManualMode = true) : s.autoDetectAndApply width = s := by
  simp [autoDetectAndApply, h]

theorem media_of_manual (s : CompactMobileMode) (width : ℕ)
    (h : s.isManualMode = true) : s.handleMediaQueryChange width = s := by
  simp [handleMediaQueryChange, h]


theorem applyOp_isManualMode_true (s : CompactMobileMode) (op : Op)
    (h : s.isManualMode = true) : (applyOp s op).isManualMode = true := by
  cases op with
  | enable => rw [applyOp, enable_isManualMode]; exact h
  | disable => rw [applyOp, disable_isManualMode]; exact h
  | toggle => rw [applyOp, toggle_isManualMode]
  | setLevel level => rw [applyOp, setLevel_isManualMode]
  | autoDetect width => rw [applyOp, auto_of_manual s width h]; exact h
  | mediaQuery width => rw [applyOp, media_of_manual s width h]; exact h
  | destroyOp => rw [applyOp, destroy, disable_isManualMode]; exact h

theorem run_isManualMode_true (ops : List Op) (s : CompactMobileMode)
    (h : s.isManualMode = true) : (run s ops).isManualMode = true := by
  induction ops generalizing s with
  | nil => exact h
  | cons op ops ih => exact ih (applyOp s op) (applyOp_isManualMode_true s op h)

theorem classConsistent_enable (s : CompactMobileMode)
    (h : ClassConsistent s) : ClassConsistent s.enableCompactMode := by
  by_cases hc : s.isCompactMode = true
  · rwa [enable_of_compact s hc]
  · simp only [Bool.not_eq_true] at hc
    unfold ClassConsistent
    rw [enable_isCompactMode, enable_compactClass s hc]

theorem classConsistent_disable (s : CompactMobileMode)
    (h : ClassConsistent s) : ClassConsistent s.disableCompactMode := by
  by_cases hc : s.isCompactMode = false
  · rwa [disable_of_not_compact s hc]
  · simp only [Bool.not_eq_false] at hc
    unfold ClassConsistent
    rw [disable_isCompactMode, disable_root s hc]

theorem classConsistent_auto (s : CompactMobileMode) (width : ℕ)
    (h : ClassConsistent s) : ClassConsistent (s.autoDetectAndApply width) := by
  unfold autoDetectAndApply
  split
  · exact h
  · split
    · exact classConsistent_enable s h
    · split
      · exact classConsistent_disable s h
      · exact h

theorem classConsistent_step (s : CompactMobileMode) (op : Op)
    (h : ClassConsistent s) : ClassConsistent (applyOp s op) := by
  cases op with
  | enable => exact classConsistent_enable s h
  | disable => exact classConsistent_disable s h
  | toggle =>
      rw [applyOp, toggleCompactMode]
      have h1 : ClassConsistent { s with isManualMode := true } := h
      split
      · exact classConsistent_disable _ h1
      · exact classConsistent_enable _ h1
  | setLevel level =>
      unfold ClassConsistent
      rw [applyOp, setLevel_isCompactMode, setLevel_compactClass]
      exact h
  | autoDetect width => exact classConsistent_auto s width h
  | mediaQuery width =>
      rw [applyOp, handleMediaQueryChange]
      split
      · exact classConsistent_auto s width h
      · exact h
  | destroyOp => exact classConsistent_disable s h

theorem run_preserves (P : CompactMobileMode → Prop)
    (hstep : ∀ s op, P s → P (applyOp s op)) (ops : List Op)
    (s : CompactMobileMode) (h : P s) : P (run s ops) := by
  induction ops generalizing s with
  | nil => exact h
  | cons op ops ih => exact ih (applyOp s op) (hstep s op h)

theorem classConsistent_new (config : CompactModeConfig) (width : ℕ) :
    ClassConsistent (CompactMobileMode.new config width) := by
  unfold CompactMobileMode.new
  exact classConsistent_auto _ width rfl

theorem reportsScale_enable (c : ℚ) (s : CompactMobileMode)
    (h : ReportsScale c s) : ReportsScale c s.enableCompactMode := by
  by_cases hc : s.isCompactMode = true
  · rwa [enable_of_compact s hc]
  · obtain ⟨h1, h2⟩ := h
    constructor
    · rw [enable_config]; exact h1
    · intro e he
      simp [enableCompactMode, hc, updateCSSProperties,
        dispatchCompactModeEvent] at he
      rcases he with he | he
      · exact h2 e he
      · rw [he]; exact h1

theorem reportsScale_disable (c : ℚ) (s : CompactMobileMode)
    (h : ReportsScale c s) : ReportsScale c s.disableCompactMode := by
  by_cases hc : s.isCompactMode = false
  · rwa [disable_of_not_compact s hc]
  · obtain ⟨h1, h2⟩ := h
    constructor
    · rw [disable_config]; exact h1
    · intro e he
      simp [disableCompactMode, hc, resetCSSProperties,
        dispatchCompactModeEvent] at he
      rcases he with he | he
      · exact h2 e he
      · rw [he]; exact h1

theorem reportsScale_auto (c : ℚ) (s : CompactMobileMode) (width : ℕ)
    (h : ReportsScale c s) : ReportsScale c (s.autoDetectAndApply width) := by
  unfold autoDetectAndApply
  split
  · exact h
  · split
    · exact reportsScale_enable c s h
    · split
      · exact reportsScale_disable c s h
      · exact h

theorem reportsScale_setLevel (c : ℚ) (s : CompactMobileMode) (level : Level)
    (h : ReportsScale c s) : ReportsScale c (s.setCompactModeLevel level) := by
  obtain ⟨h1, h2⟩ := h
  cases level <;>
    exact ⟨h1, by
      intro e he
      simp only [setCompactModeLevel, updateCSSProperties] at he
      exact h2 e he⟩

theorem reportsScale_step (c : ℚ) (s : CompactMobileMode) (op : Op)
    (h : ReportsScale c s) : ReportsScale c (applyOp s op) := by
  cases op with
  | enable => exact reportsScale_enable c s h
  | disable => exact reportsScale_disable c s h
  | toggle =>
      rw [applyOp, toggleCompactMode]
      have h1 : ReportsScale c { s with isManualMode := true } := h
      split
      · exact reportsScale_disable c _ h1
      · exact reportsScale_enable c _ h1
  | setLevel level => exact reportsScale_setLevel c s level h
  | autoDetect width => exact reportsScale_auto c s width h
  | mediaQuery width =>
      rw [applyOp, handleMediaQueryChange]
      split
      · exact reportsScale_auto c s width h
      · exact h
  | destroyOp => exact reportsScale_disable c s h

theorem reportsScale_new (config : CompactModeConfig) (width : ℕ) :
    ReportsScale config.scaleFactor (CompactMobileMode.new config width) := by
  unfold CompactMobileMode.new
  exact reportsScale_auto _ _ width ⟨rfl, by intro e he; cases he⟩

end CompactMobileMode

/-- C1: for every width, while the controller is in auto mode
(`config.autoEnable` true and `isManualMode` false), after
`autoDetectAndApply` runs at width `w`, `isCompactMode` equals
`w ≤ config.breakpoint`. -/
theorem claim1_autoDetect_matches_breakpoint (s : CompactMobileMode)
    (width : ℕ) (hAuto : s.config.autoEnable = true)
    (hManual : s.isManualMode = false) :
    (s.autoDetectAndApply width).isCompactMode =
      decide (width ≤ s.config.breakpoint) := by
  unfold CompactMobileMode.autoDetectAndApply
  rw [if_neg (by simp [hAuto, hManual])]
  by_cases hw : width ≤ s.config.breakpoint <;>
  cases hc : s.isCompactMode <;>
  simp [hw, hc, CompactMobileMode.enable_isCompactMode,
    CompactMobileMode.disable_isCompactMode]

/-- Witness for C1: the fresh wide instance is in auto mode, and
re-evaluating at width 375 yields compact mode (375 ≤ 480). -/
theorem claim1_witness :
    exampleWide.config.autoEnable = true ∧ exampleWide.isManualMode = false ∧
    (exampleWide.autoDetectAndApply 375).isCompactMode =
      decide (375 ≤ exampleWide.config.breakpoint) :=
  ⟨by decide, by decide,
    claim1_autoDetect_matches_breakpoint exampleWide 375 (by decide) (by decide)⟩

/-- C2 (counterexample): the reachable state obtained from a fresh compact
instance by one `setCompactModeLevel("smaller")` call is compact with a
published scale property of 0.8, while the controller reports
`config.scaleFactor` = 0.857 — the reported scale does not equal the
published property. -/
theorem claim2_counterexample :
    (run exampleCompact [Op.setLevel Level.smaller]).isCompactMode = true ∧
    (run exampleCompact [Op.setLevel Level.smaller]).root.scaleFactorProp =
      some (mkRat 8 10) ∧
    (run exampleCompact [Op.setLevel Level.smaller]).getStatus.scaleFactor =
      mkRat 857 1000 ∧
    mkRat 857 1000 ≠ mkRat 8 10 := by decide

/-- C2 (amended): in every state reachable from a fresh instance by public
operations, `isCompactMode` agrees with the presence of the `compact-mode`
marker class; the scale-factor half of the claim fails (see the
counterexample). -/
theorem claim2_class_marker_invariant (config : CompactModeConfig)
    (width : ℕ) (ops : List Op) :
    (run (CompactMobileMode.new config width) ops).isCompactMode =
      (run (CompactMobileMode.new config width) ops).root.compactClass :=
  CompactMobileMode.run_preserves ClassConsistent
    CompactMobileMode.classConsistent_step ops _
    (CompactMobileMode.classConsistent_new config width)

/-- C3: once `isManualMode` is true, every sequence of public operations
keeps it true, and a width re-evaluation (`autoDetectAndApply` or
`handleMediaQueryChange`) leaves the whole state unchanged. -/
theorem claim3_manual_mode_sticky (s : CompactMobileMode)
    (h : s.isManualMode = true) :
    (∀ ops : List Op, (run s ops).isManualMode = true) ∧
    (∀ width : ℕ, s.autoDetectAndApply width = s ∧
      s.handleMediaQueryChange width = s) :=
  ⟨fun ops => CompactMobileMode.run_isManualMode_true ops s h,
   fun width => ⟨CompactMobileMode.auto_of_manual s width h,
     CompactMobileMode.media_of_manual s width h⟩⟩

/-- Witness for C3: the toggled instance is manual; an auto-detect at
width 300 changes nothing and manual mode survives it. -/
theorem claim3_witness :
    (run exampleManual [Op.autoDetect 300]).isManualMode = true ∧
    exampleManual.autoDetectAndApply 300 = exampleManual :=
  have h := claim3_manual_mode_sticky exampleManual (by decide)
  ⟨h.1 [Op.autoDetect 300], (h.2 300).1⟩

/-- C4: `toggleCompactMode` flips `isCompactMode` and sets `isManualMode`;
two toggles restore the original compact flag while manual stays true. -/
theorem claim4_toggle_flips (s : CompactMobileMode) :
    s.toggleCompactMode.isCompactMode = !s.isCompactMode ∧
    s.toggleCompactMode.isManualMode = true ∧
    s.toggleCompactMode.toggleCompactMode.isCompactMode = s.isCompactMode ∧
    s.toggleCompactMode.toggleCompactMode.isManualMode = true := by
  refine ⟨CompactMobileMode.toggle_isCompactMode s,
    CompactMobileMode.toggle_isManualMode s, ?_,
    CompactMobileMode.toggle_isManualMode _⟩
  rw [CompactMobileMode.toggle_isCompactMode,
    CompactMobileMode.toggle_isCompactMode, Bool.not_not]

/-- C5: `setCompactModeLevel("smaller")` then `setCompactModeLevel("normal")`
publishes exactly what `setCompactModeLevel("normal")` alone publishes:
scale property `config.scaleFactor`, base font 12px, and no
`compact-mode-smaller` class. -/
theorem claim5_setLevel_roundtrip (s : CompactMobileMode) :
    ((s.setCompactModeLevel Level.smaller).setCompactModeLevel
        Level.normal).root.scaleFactorProp = some s.config.scaleFactor ∧
    ((s.setCompactModeLevel Level.smaller).setCompactModeLevel
        Level.normal).root.fontBaseProp = some 12 ∧
    ((s.setCompactModeLevel Level.smaller).setCompactModeLevel
        Level.normal).root.scaleFactorProp =
      (s.setCompactModeLevel Level.normal).root.scaleFactorProp ∧
    ((s.setCompactModeLevel Level.smaller).setCompactModeLevel
        Level.normal).root.fontBaseProp =
      (s.setCompactModeLevel Level.normal).root.fontBaseProp ∧
    ((s.setCompactModeLevel Level.smaller).setCompactModeLevel
        Level.normal).root.smallerClass = false := by
  simp [CompactMobileMode.setCompactModeLevel,
    CompactMobileMode.updateCSSProperties, jsOrQ, jsOrN]

/-- C6: `enableCompactMode` is a complete no-op (state, DOM and event log
unchanged) when already compact, and `disableCompactMode` likewise when
already not compact. -/
theorem claim6_enable_disable_noop (s : CompactMobileMode) :
    (s.isCompactMode = true → s.enableCompactMode = s) ∧
    (s.isCompactMode = false → s.disableCompactMode = s) :=
  ⟨fun h => CompactMobileMode.enable_of_compact s h,
   fun h => CompactMobileMode.disable_of_not_compact s h⟩

/-- Witness for C6: the fresh compact instance absorbs `enableCompactMode`
and the fresh wide instance absorbs `disableCompactMode`. -/
theorem claim6_witness :
    exampleCompact.enableCompactMode = exampleCompact ∧
    exampleWide.disableCompactMode = exampleWide :=
  ⟨(claim6_enable_disable_noop exampleCompact).1 (by decide),
   (claim6_enable_disable_noop exampleWide).2 (by decide)⟩

/-- C7: `setCompactModeLevel` always sets `isManualMode` and never changes
`isCompactMode`. -/
theorem claim7_setLevel_frame (s : CompactMobileMode) (level : Level) :
    (s.setCompactModeLevel level).isManualMode = true ∧
    (s.setCompactModeLevel level).isCompactMode = s.isCompactMode :=
  ⟨CompactMobileMode.setLevel_isManualMode s level,
   CompactMobileMode.setLevel_isCompactMode s level⟩

/-- C8: outside a browser `initCompactMobileMode` throws its environment
error and the unset global stays unset; inside a browser it never throws
and returns an instance. -/
theorem claim8_init_browser_guard (width : ℕ) (config : CompactModeConfig)
    (g : Option CompactMobileMode) :
    ((initCompactMobileMode false width config none).1 = none ∧
      (initCompactMobileMode false width config none).2 =
        Except.error
          "CompactMobileMode can only be initialized in browser environment") ∧
    ∃ inst, (initCompactMobileMode true width config g).2 =
      Except.ok inst := by
  refine ⟨⟨rfl, rfl⟩, ?_⟩
  cases g with
  | none => exact ⟨CompactMobileMode.new config width, rfl⟩
  | some inst => exact ⟨inst, rfl⟩

/-- C9 (counterexample): from the fresh wide (non-compact) instance,
`setCompactModeLevel("smaller")` then `destroy()` leaves the
`compact-mode-smaller` class and the custom properties on the root,
because `disableCompactMode` inside `destroy` is a no-op when not
compact. -/
theorem claim9_counterexample :
    (run exampleWide [Op.setLevel Level.smaller,
      Op.destroyOp]).root.smallerClass = true ∧
    (run exampleWide [Op.setLevel Level.smaller,
      Op.destroyOp]).root.scaleFactorProp = some (mkRat 8 10) ∧
    (run exampleWide [Op.setLevel Level.smaller,
      Op.destroyOp]).root.fontBaseProp = some 11 := by decide

/-- C9 (amended): when the controller is compact at the moment of the
`destroy()` call, the document root afterwards carries neither marker
class and none of the three custom properties. -/
theorem claim9_destroy_clean_when_compact (s : CompactMobileMode)
    (h : s.isCompactMode = true) :
    s.destroy.root.compactClass = false ∧
    s.destroy.root.smallerClass = false ∧
    s.destroy.root.scaleFactorProp = none ∧
    s.destroy.root.fontBaseProp = none ∧
    s.destroy.root.touchMinSizeProp = none := by
  unfold CompactMobileMode.destroy
  rw [CompactMobileMode.disable_root s h]
  exact ⟨rfl, rfl, rfl, rfl, rfl⟩

/-- Witness for C9 (amended): destroying the fresh compact instance clears
both classes and all three properties. -/
theorem claim9_witness :
    exampleCompact.destroy.root.compactClass = false ∧
    exampleCompact.destroy.root.smallerClass = false ∧
    exampleCompact.destroy.root.scaleFactorProp = none :=
  have h := claim9_destroy_clean_when_compact exampleCompact (by decide)
  ⟨h.1, h.2.1, h.2.2.1⟩

/-- C10: in every reachable state, `getStatus().scaleFactor` and the
`scaleFactor` field of every dispatched `compactModeChange` payload equal
`config.scaleFactor` — the reduced 0.8 level is never reported. -/
theorem claim10_reported_scale_constant (config : CompactModeConfig)
    (width : ℕ) (ops : List Op) :
    (run (CompactMobileMode.new config width) ops).getStatus.scaleFactor =
      config.scaleFactor ∧
    ∀ e ∈ (run (CompactMobileMode.new config width) ops).events,
      e.scaleFactor = config.scaleFactor :=
  have h := CompactMobileMode.run_preserves (ReportsScale config.scaleFactor)
    (fun s op hs =>
      CompactMobileMode.reportsScale_step config.scaleFactor s op hs) ops _
    (CompactMobileMode.reportsScale_new config width)
  ⟨h.1, h.2⟩
